import Mathlib

/-!
Verification development for the safeways accident-prediction pipeline.

The Python sources (preditor_ofc.py, data_generator.py, interface.py) are
shallowly embedded below.  DataFrames are modelled as named columns of
values, pandas NaN as an explicit value, floats as rationals, and the
fallible operations (KeyError, RuntimeError) as Option/Except results.
External library behaviour that the claims do not depend on (calendar
field extraction, the fitted regressor, the sample standard deviation
statistic) is kept abstract as explicit function parameters.
-/

/-! ## Python substring containment: the expression k in cond -/

/-- Boolean test that the first list is an initial segment of the second. -/
def headMatch : List Char → List Char → Bool
  | [], _ => true
  | _ :: _, [] => false
  | a :: as, b :: bs => a == b && headMatch as bs

/-- Boolean substring test on character lists, scanning left to right. -/
def hasSub (p : List Char) : List Char → Bool
  | [] => headMatch p []
  | b :: bs => headMatch p (b :: bs) || hasSub p bs

/-- Python's k in s substring containment on strings. -/
def pyIn (k s : String) : Bool := hasSub k.toList s.toList

/-! ## Weather normalizers

Two distinct source functions share the name _simplificar_clima: one in
preditor_ofc.py (used by training aggregation and by prever), one in
data_generator.py (used when building dashboard prediction inputs). -/

/-- Embedding of AccidentPredictor._simplificar_clima (preditor_ofc.py,
lines 30-41): first-matching substring rule over a fixed priority order. -/
def simplificarClima (cond : String) : String :=
  if pyIn "Chuva" cond || pyIn "Garoa" cond then "Chuva"
  else if pyIn "Nublado" cond then "Nublado"
  else if pyIn "Céu Claro" cond || pyIn "Sol" cond || pyIn "Bom" cond then "Bom"
  else if pyIn "Vento" cond then "Vento"
  else if pyIn "Nevoeiro" cond || pyIn "Neblina" cond then "Nevoeiro/Neblina"
  else "Outro"

/-- Embedding of _simplificar_clima from data_generator.py (lines 42-53).
Identical to the predictor's version except that the clear-sky rule tests
only "Céu Claro" and "Sol", without the keyword "Bom". -/
def simplificarClimaGen (cond : String) : String :=
  if pyIn "Chuva" cond || pyIn "Garoa" cond then "Chuva"
  else if pyIn "Nublado" cond then "Nublado"
  else if pyIn "Céu Claro" cond || pyIn "Sol" cond then "Bom"
  else if pyIn "Vento" cond then "Vento"
  else if pyIn "Nevoeiro" cond || pyIn "Neblina" cond then "Nevoeiro/Neblina"
  else "Outro"

/-! ## String ordering

Python compares strings lexicographically by code point; pandas sorts with
that order.  The comparison is re-implemented on character code lists so
that it evaluates inside the kernel. -/

/-- Lexicographic less-or-equal on character lists, by code point. -/
def chLe : List Char → List Char → Bool
  | [], _ => true
  | _ :: _, [] => false
  | a :: as, b :: bs =>
    if a.toNat < b.toNat then true
    else if b.toNat < a.toNat then false
    else chLe as bs

/-- Python string less-or-equal: code-point lexicographic order. -/
def strLe (a b : String) : Bool := chLe a.toList b.toList

/-- strLe as a proposition, for use with the sorting library. -/
def strLeP (a b : String) : Prop := strLe a b = true

instance : DecidableRel strLeP := fun a b =>
  inferInstanceAs (Decidable (strLe a b = true))

theorem chLe_cons {x y : Char} {xs ys : List Char} :
    chLe (x :: xs) (y :: ys) = true ↔
      x.toNat < y.toNat ∨ (x.toNat = y.toNat ∧ chLe xs ys = true) := by
  simp only [chLe]
  rcases Nat.lt_trichotomy x.toNat y.toNat with h | h | h
  · simp [h]
  · simp [h, Nat.lt_irrefl]
  · rw [if_neg (by omega : ¬ x.toNat < y.toNat), if_pos h]
    simp only [Bool.false_eq_true, false_iff]
    rintro (h' | ⟨h', _⟩) <;> omega

theorem chLe_total (a b : List Char) : chLe a b = true ∨ chLe b a = true := by
  induction a generalizing b with
  | nil => exact Or.inl rfl
  | cons x xs ih =>
    cases b with
    | nil => exact Or.inr rfl
    | cons y ys =>
      rcases Nat.lt_trichotomy x.toNat y.toNat with h | h | h
      · exact Or.inl (chLe_cons.mpr (Or.inl h))
      · rcases ih ys with h' | h'
        · exact Or.inl (chLe_cons.mpr (Or.inr ⟨h, h'⟩))
        · exact Or.inr (chLe_cons.mpr (Or.inr ⟨h.symm, h'⟩))
      · exact Or.inr (chLe_cons.mpr (Or.inl h))

theorem chLe_trans {a b c : List Char} (hab : chLe a b = true)
    (hbc : chLe b c = true) : chLe a c = true := by
  induction a generalizing b c with
  | nil => rfl
  | cons x xs ih =>
    cases b with
    | nil => exact absurd hab (by simp [chLe])
    | cons y ys =>
      cases c with
      | nil => exact absurd hbc (by simp [chLe])
      | cons z zs =>
        rw [chLe_cons] at hab hbc ⊢
        rcases hab with h1 | ⟨e1, r1⟩ <;> rcases hbc with h2 | ⟨e2, r2⟩
        · exact Or.inl (by omega)
        · exact Or.inl (by omega)
        · exact Or.inl (by omega)
        · exact Or.inr ⟨by omega, ih r1 r2⟩

instance : IsTotal String strLeP :=
  ⟨fun a b => chLe_total a.toList b.toList⟩

instance : IsTrans String strLeP :=
  ⟨fun _ _ _ hab hbc => chLe_trans hab hbc⟩

/-! ## LabelEncoder model

sklearn's LabelEncoder stores classes_ as the sorted distinct values seen
at fit time; transform maps a value to its index in classes_ and raises on
a value outside classes_. -/

/-- classes_ produced by LabelEncoder.fit: sorted distinct input values. -/
def leClasses (vals : List String) : List String :=
  List.insertionSort strLeP vals.dedup

/-- LabelEncoder.transform on one value: index in classes_, or a raised
error (modelled as none) when the value is not in classes_. -/
def leTransform (classes : List String) (x : String) : Option ℤ :=
  if x ∈ classes then some (classes.indexOf x) else none

/-- Embedding of the guarded encoding lambda of _criar_features
(preditor_ofc.py line 97): enc.transform([x])[0] if x in enc.classes_
else -1.  A none result would mean an uncaught exception. -/
def encodeSafe (classes : List String) (x : String) : Option ℤ :=
  if x ∈ classes then leTransform classes x else some (-1)

/-- Total integer code of a value under frozen classes: index if seen,
sentinel -1 otherwise.  This is the value encodeSafe always returns. -/
def encodeVal (classes : List String) (x : String) : ℤ :=
  if x ∈ classes then (classes.indexOf x : ℤ) else -1

/-! ## pandas Series.mode

Series.mode() returns the values of maximal multiplicity in ascending
sorted order; the aggregation takes element [0], hence the least such
value in Python string order. -/

/-- Multiplicity of v in l. -/
def countV (l : List String) (v : String) : Nat :=
  (l.filter (fun x => x == v)).length

/-- Largest multiplicity attained in l. -/
def maxCountV (l : List String) : Nat :=
  (l.map (countV l)).foldr max 0

/-- The distinct values of maximal multiplicity. -/
def modeCands (l : List String) : List String :=
  l.dedup.filter (fun v => countV l v == maxCountV l)

/-- Embedding of x.mode()[0]: the first element of the ascending sort of
the tied most-frequent values. -/
def pdModeFirst (l : List String) : String :=
  (List.insertionSort strLeP (modeCands l)).headD ""

/-! ## Lag and rolling features

Embedding of preditor_ofc.py lines 78-91 at the level of a single numeric
series.  pandas NaN is modelled by Option: shift(k) introduces k leading
NaNs, rolling(w, min_periods=1) applies a statistic to the non-NaN values
of the trailing window of width w when at least min_periods are present,
and fillna(0) replaces the remaining NaNs by 0.  The rolling sample
standard deviation (ddof = 1) is NaN on fewer than two observations; on
two or more it applies a statistic kept abstract here as stdFn (NumPy
computes the square root of the unbiased sample variance, an irrational
real in general). -/

/-- Arithmetic mean of a list of rationals, as computed by pandas. -/
def listMean (l : List ℚ) : ℚ := l.sum / l.length

/-- Series.shift(k): k leading NaNs, the last k values dropped. -/
def shiftOpt (k : Nat) (xs : List (Option ℚ)) : List (Option ℚ) :=
  (List.replicate k none ++ xs).take xs.length

/-- Non-NaN values of the trailing rolling window of width w at index i:
positions max(0, i+1-w) through i. -/
def windowAt (w : Nat) (xs : List (Option ℚ)) (i : Nat) : List ℚ :=
  ((xs.take (i + 1)).drop (i + 1 - w)).filterMap id

/-- rolling(w, min_periods=1).mean(): the mean of the window's non-NaN
values when at least one is present, NaN otherwise. -/
def rollMeanMP1 (w : Nat) (xs : List (Option ℚ)) : List (Option ℚ) :=
  (List.range xs.length).map (fun i =>
    if 1 ≤ (windowAt w xs i).length then some (listMean (windowAt w xs i))
    else none)

/-- rolling(w, min_periods=1).std(): the ddof-1 sample standard deviation
needs at least two observations, and is NaN otherwise. -/
def rollStdMP1 (stdFn : List ℚ → ℚ) (w : Nat) (xs : List (Option ℚ)) :
    List (Option ℚ) :=
  (List.range xs.length).map (fun i =>
    if 2 ≤ (windowAt w xs i).length then some (stdFn (windowAt w xs i))
    else none)

/-- The column lag_k as built from the acidentes series (shift then the
frame-wide fillna(0)). -/
def lagFeature (k : Nat) (xs : List ℚ) : List ℚ :=
  (shiftOpt k (xs.map some)).map (fun o => o.getD 0)

/-- The column media_w: shift(1).rolling(w, min_periods=1).mean() then
fillna(0). -/
def mediaFeature (w : Nat) (xs : List ℚ) : List ℚ :=
  (rollMeanMP1 w (shiftOpt 1 (xs.map some))).map (fun o => o.getD 0)

/-- The column std_w: shift(1).rolling(w, min_periods=1).std() then
fillna(0). -/
def stdFeature (stdFn : List ℚ → ℚ) (w : Nat) (xs : List ℚ) : List ℚ :=
  (rollStdMP1 stdFn w (shiftOpt 1 (xs.map some))).map (fun o => o.getD 0)

/-! ## Daily aggregation

Embedding of AccidentPredictor._processar_dados (preditor_ofc.py lines
43-61) from the point where records have survived parsing and the
dropna/year filters: every record carries a parsed date key, the required
categorical fields and a parsed hour.  Line 48 rewrites the weather text
through the normalizer, the groupby aggregates per date (pandas sorts the
group keys ascending and keeps record order inside a group), and line 59
applies the normalizer a second time to the modal weather value. -/

/-- One raw incident record after parsing and the dropna filters. -/
structure RawRec where
  data : Nat
  uf : String
  municipio : String
  tipo_acidente : String
  condicao : String
  hora : ℚ
deriving DecidableEq

/-- One row of the aggregated daily series. -/
structure DailyRow where
  data : Nat
  acidentes : Nat
  uf : String
  municipio : String
  tipo_acidente : String
  hora_media : ℚ
  clima : String

/-- Line 48 of _processar_dados: the weather text of a record rewritten
through the normalizer before grouping. -/
def simplRec (r : RawRec) : RawRec :=
  { r with condicao := simplificarClima r.condicao }

/-- The records of one calendar-day group, in original record order, after
the per-record weather rewrite. -/
def dayGroup (recs : List RawRec) (d : Nat) : List RawRec :=
  (recs.map simplRec).filter (fun r => r.data = d)

/-- The aggregated row of one calendar-day group: count, modal categorical
fields, mean hour, and the modal weather value normalized a second time
(line 59). -/
def mkDaily (recs : List RawRec) (d : Nat) : DailyRow :=
  { data := d
    acidentes := (dayGroup recs d).length
    uf := pdModeFirst ((dayGroup recs d).map (fun r => r.uf))
    municipio := pdModeFirst ((dayGroup recs d).map (fun r => r.municipio))
    tipo_acidente := pdModeFirst ((dayGroup recs d).map (fun r => r.tipo_acidente))
    hora_media := listMean ((dayGroup recs d).map (fun r => r.hora))
    clima := simplificarClima (pdModeFirst ((dayGroup recs d).map (fun r => r.condicao))) }

/-- Embedding of the aggregation of _processar_dados: one output row per
distinct date, in ascending date order as pandas groupby produces them. -/
def processarAgg (recs : List RawRec) : List DailyRow :=
  (List.insertionSort (· ≤ ·) ((recs.map simplRec).map (fun r => r.data)).dedup).map
    (mkDaily recs)

/-- Embedding of split_index = int(len(X) * 0.7) (preditor_ofc.py line
127; the float product of a list length with 0.7 truncated to an integer
agrees with exact rational truncation at the sizes involved). -/
def splitIndex (n : Nat) : Nat := 7 * n / 10

/-! ## DataFrame model

A frame is a row count, an ordered list of column names, and the data of
each named column.  Reading a missing column raises KeyError (modelled as
an Except error); assigning an existing column replaces it in place and
assigning a new one appends its name, as pandas does. -/

/-- One cell of a frame: a float (rational), a string, or NaN. -/
inductive Val where
  | num (q : ℚ)
  | str (s : String)
  | nan
deriving DecidableEq

/-- A column of cells. -/
abbrev Col := List Val

/-- Errors surfaced by the predictor: the not-trained RuntimeError and
pandas KeyError carrying the missing column names. -/
inductive PErr where
  | notTrained
  | keyError (missing : List String)
deriving DecidableEq

/-- The frame model. -/
structure Frame where
  nrows : Nat
  cols : List String
  val : String → Col

/-- Column read, raising KeyError when the name is absent. -/
def Frame.getE (f : Frame) (c : String) : Except PErr Col :=
  if c ∈ f.cols then .ok (f.val c) else .error (.keyError [c])

/-- Column assignment: replace in place, or append a new name. -/
def Frame.setCol (f : Frame) (c : String) (xs : Col) : Frame :=
  { nrows := f.nrows
    cols := if c ∈ f.cols then f.cols else f.cols ++ [c]
    val := fun c2 => if c2 = c then xs else f.val c2 }

/-- Scalar assignment df[c] = v broadcasts to every row. -/
def Frame.setScalar (f : Frame) (c : String) (v : Val) : Frame :=
  f.setCol c (List.replicate f.nrows v)

/-- Column-list selection df[cs]: the result has exactly the columns cs
in that order; any absent name raises KeyError naming the missing ones. -/
def Frame.select (f : Frame) (cs : List String) : Except PErr Frame :=
  if cs.all (fun c => f.cols.contains c) then .ok ⟨f.nrows, cs, f.val⟩
  else .error (.keyError (cs.filter (fun c => !(f.cols.contains c))))

/-- NaN replacement used by df.fillna(0). -/
def fillVal : Val → Val
  | .nan => .num 0
  | v => v

/-- df.fillna(0) over every column. -/
def Frame.fillna0 (f : Frame) : Frame :=
  { f with val := fun c => (f.val c).map fillVal }

/-- Numeric view of a cell: NaN and strings are missing. -/
def toNumOpt : Val → Option ℚ
  | .num q => some q
  | _ => none

/-- Back from the numeric view, restoring NaN. -/
def optToVal : Option ℚ → Val
  | some q => .num q
  | none => .nan

/-- String view of a cell (categorical columns hold strings). -/
def asStr : Val → String
  | .str s => s
  | _ => ""

/-- Embedding of (dia_semana >= 5).astype(int); a NaN comparison is False
in pandas. -/
def ge5Val : Val → Val
  | .num q => .num (if 5 ≤ q then 1 else 0)
  | _ => .num 0

/-- Cellwise product, as in df["feriado"] * df["fim_semana"]. -/
def vmul : Val → Val → Val
  | .num a, .num b => .num (a * b)
  | _, _ => .nan

/-- Series.shift(k) on a frame column. -/
def colShift (k : Nat) (c : Col) : Col :=
  (shiftOpt k (c.map toNumOpt)).map optToVal

/-- shift-then-rolling mean on a frame column. -/
def colRollMean (w : Nat) (c : Col) : Col :=
  (rollMeanMP1 w (c.map toNumOpt)).map optToVal

/-- shift-then-rolling sample standard deviation on a frame column. -/
def colRollStd (stdFn : List ℚ → ℚ) (w : Nat) (c : Col) : Col :=
  (rollStdMP1 stdFn w (c.map toNumOpt)).map optToVal

/-- External library behaviour the claims do not depend on, passed in
explicitly: the date parser, the .dt calendar field extractors, the sine
and cosine encodings, the Brazilian holiday calendar, the sample standard
deviation statistic, and the fitted regressor's predict. -/
structure ExtFns where
  parseDate : Val → Val
  anoF : Val → Val
  mesF : Val → Val
  diaSemanaF : Val → Val
  diaAnoF : Val → Val
  semanaF : Val → Val
  sinDsF : Val → Val
  cosDsF : Val → Val
  sinDyF : Val → Val
  cosDyF : Val → Val
  feriadoF : Val → Bool
  stdFn : List ℚ → ℚ
  predict : Frame → List ℚ

/-- The encoder registry self.encoders: field name to frozen classes_. -/
abbrev EncState := List (String × List String)

/-- The frozen feature-name list of _criar_features (preditor_ofc.py
lines 105-112), in source order. -/
def featuresList : List String :=
  ["ano", "mes", "dia_semana", "dia_ano", "semana", "fim_semana",
   "dia_semana_sin", "dia_semana_cos", "dia_ano_sin", "dia_ano_cos",
   "hora_media", "feriado", "feriado_fim_semana",
   "lag_1", "lag_2", "lag_7", "lag_14",
   "media_7", "media_14", "media_28",
   "std_7", "std_14", "std_28",
   "uf_enc", "municipio_enc", "tipo_acidente_enc", "clima_enc"]

/-- The categorical fields encoded by _criar_features, in loop order. -/
def catCols : List String := ["uf", "municipio", "tipo_acidente", "clima"]

/-- One iteration of the encoding loop of _criar_features (lines 93-103):
with the column present and an encoder frozen, transform with the -1
sentinel for unseen values; with the column present and no encoder yet,
fit a new encoder on the column then transform; with the column absent,
write a zero column. -/
def encStep (p : Frame × EncState) (c : String) : Frame × EncState :=
  if c ∈ p.1.cols then
    match List.lookup c p.2 with
    | some classes =>
      (p.1.setCol (c ++ "_enc")
        ((p.1.val c).map (fun v => Val.num ((encodeVal classes (asStr v) : ℤ) : ℚ))),
       p.2)
    | none =>
      let classes := leClasses ((p.1.val c).map asStr)
      (p.1.setCol (c ++ "_enc")
        ((p.1.val c).map (fun v => Val.num ((encodeVal classes (asStr v) : ℤ) : ℚ))),
       (c, classes) :: p.2)
  else
    (p.1.setScalar (c ++ "_enc") (Val.num 0), p.2)

/-- The names of the calendar columns _criar_features writes (lines
64-76), in write order. -/
def calNames : List String :=
  ["ano", "mes", "dia_semana", "dia_ano", "semana", "fim_semana",
   "feriado", "feriado_fim_semana",
   "dia_semana_sin", "dia_semana_cos", "dia_ano_sin", "dia_ano_cos"]

/-- The names of the lag and rolling columns (lines 78-89), in write
order. -/
def lagNames : List String :=
  ["lag_1", "lag_2", "lag_7", "lag_14",
   "media_7", "std_7", "media_14", "std_14", "media_28", "std_28"]

/-- Calendar stage of _criar_features (lines 64-76).  The source reads
back the dia_semana, dia_ano, feriado and fim_semana columns it has just
assigned; those reads are written here as the assigned columns
themselves. -/
def calFrame (E : ExtFns) (f0 : Frame) (dataCol : Col) : Frame :=
  ((((((((((((f0.setCol "ano" (dataCol.map E.anoF)).setCol
    "mes" (dataCol.map E.mesF)).setCol
    "dia_semana" (dataCol.map E.diaSemanaF)).setCol
    "dia_ano" (dataCol.map E.diaAnoF)).setCol
    "semana" (dataCol.map E.semanaF)).setCol
    "fim_semana" ((dataCol.map E.diaSemanaF).map ge5Val)).setCol
    "feriado" (dataCol.map (fun v => Val.num (if E.feriadoF v then 1 else 0)))).setCol
    "feriado_fim_semana"
      (List.zipWith vmul
        (dataCol.map (fun v => Val.num (if E.feriadoF v then 1 else 0)))
        ((dataCol.map E.diaSemanaF).map ge5Val))).setCol
    "dia_semana_sin" ((dataCol.map E.diaSemanaF).map E.sinDsF)).setCol
    "dia_semana_cos" ((dataCol.map E.diaSemanaF).map E.cosDsF)).setCol
    "dia_ano_sin" ((dataCol.map E.diaAnoF).map E.sinDyF)).setCol
    "dia_ano_cos" ((dataCol.map E.diaAnoF).map E.cosDyF))

/-- Lag and rolling stage of _criar_features (lines 78-89): computed from
the acidentes column when it exists, scalar zeros otherwise. -/
def lagFrame (E : ExtFns) (f12 : Frame) : Frame :=
  if "acidentes" ∈ f12.cols then
      let ac := f12.val "acidentes"
      let g1 := f12.setCol "lag_1" (colShift 1 ac)
      let g2 := g1.setCol "lag_2" (colShift 2 ac)
      let g3 := g2.setCol "lag_7" (colShift 7 ac)
      let g4 := g3.setCol "lag_14" (colShift 14 ac)
      let g5 := g4.setCol "media_7" (colRollMean 7 (colShift 1 ac))
      let g6 := g5.setCol "std_7" (colRollStd E.stdFn 7 (colShift 1 ac))
      let g7 := g6.setCol "media_14" (colRollMean 14 (colShift 1 ac))
      let g8 := g7.setCol "std_14" (colRollStd E.stdFn 14 (colShift 1 ac))
      let g9 := g8.setCol "media_28" (colRollMean 28 (colShift 1 ac))
      g9.setCol "std_28" (colRollStd E.stdFn 28 (colShift 1 ac))
  else
      let g1 := f12.setScalar "lag_1" (Val.num 0)
      let g2 := g1.setScalar "lag_2" (Val.num 0)
      let g3 := g2.setScalar "lag_7" (Val.num 0)
      let g4 := g3.setScalar "lag_14" (Val.num 0)
      let g5 := g4.setScalar "media_7" (Val.num 0)
      let g6 := g5.setScalar "std_7" (Val.num 0)
      let g7 := g6.setScalar "media_14" (Val.num 0)
      let g8 := g7.setScalar "std_14" (Val.num 0)
      let g9 := g8.setScalar "media_28" (Val.num 0)
      g9.setScalar "std_28" (Val.num 0)

/-- Encoding stage of _criar_features (lines 93-103), looping over the
four categorical fields in source order. -/
def encFrame (encs : EncState) (f14 : Frame) : Frame × EncState :=
  encStep (encStep (encStep (encStep (f14, encs) "uf") "municipio") "tipo_acidente") "clima"

/-- Embedding of AccidentPredictor._criar_features (preditor_ofc.py lines
63-115): calendar columns from "data", the holiday interaction, lag and
rolling columns from "acidentes" when that column exists and zero columns
otherwise, fillna(0), the categorical encoding loop, and the final
selection of the frozen feature list (which raises KeyError when a listed
column — in practice hora_media — was never created nor supplied). -/
def criarFeatures (E : ExtFns) (encs : EncState) (f0 : Frame) :
    Except PErr (Frame × EncState × Option Col) :=
  match f0.getE "data" with
  | .error e => .error e
  | .ok dataCol =>
    let p := encFrame encs ((lagFrame E (calFrame E f0 dataCol)).fillna0)
    match p.1.select featuresList with
    | .error e => .error e
    | .ok X =>
      .ok (X, p.2,
        if "acidentes" ∈ p.1.cols then some (p.1.val "acidentes") else none)

/-- The predictor state the claims touch: the encoder registry, the
frozen feature-name list, and the trained flag. -/
structure PredState where
  encoders : EncState
  featureNames : List String
  treinado : Bool
deriving DecidableEq

/-- The aggregated daily series as a frame, with the column layout
_processar_dados returns (condicao_metereologica dropped, clima last). -/
def aggFrame (rows : List DailyRow) : Frame :=
  { nrows := rows.length
    cols := ["data", "acidentes", "uf", "municipio", "tipo_acidente",
             "hora_media", "clima"]
    val := fun c =>
      if c = "data" then rows.map (fun r => Val.num r.data)
      else if c = "acidentes" then rows.map (fun r => Val.num r.acidentes)
      else if c = "uf" then rows.map (fun r => Val.str r.uf)
      else if c = "municipio" then rows.map (fun r => Val.str r.municipio)
      else if c = "tipo_acidente" then rows.map (fun r => Val.str r.tipo_acidente)
      else if c = "hora_media" then rows.map (fun r => Val.num r.hora_media)
      else if c = "clima" then rows.map (fun r => Val.str r.clima)
      else [] }

/-- Embedding of AccidentPredictor.treinar (preditor_ofc.py lines
117-142) restricted to the state the claims concern: aggregate, build
features over the full series with an empty registry (the encoders are
fitted here, before the 70/30 split of line 127), freeze the feature
names, set the trained flag.  The regressor fit and the metrics are
external effects with no bearing on the claims. -/
def treinar (E : ExtFns) (recs : List RawRec) : Except PErr PredState :=
  match criarFeatures E [] (aggFrame (processarAgg recs)) with
  | .error e => .error e
  | .ok (X, encs, _y) =>
    .ok { encoders := encs, featureNames := X.cols, treinado := true }

/-- NumPy rounding to the nearest integer, halves to even. -/
def npRound (q : ℚ) : ℤ :=
  if q - ⌊q⌋ < 1 / 2 then ⌊q⌋
  else if 1 / 2 < q - ⌊q⌋ then ⌊q⌋ + 1
  else if ⌊q⌋ % 2 = 0 then ⌊q⌋ else ⌊q⌋ + 1

/-- Embedding of AccidentPredictor.prever (lines 164-191) up to the
feature matrix X_predict handed to the regressor: the not-trained guard,
the derived "data" and "clima" columns, feature construction, and the
selection of self.feature_names. -/
def preverCore (E : ExtFns) (st : PredState) (inp : Frame) :
    Except PErr (Frame × EncState) :=
  if st.treinado = false then .error .notTrained
  else
    match inp.getE "data_inversa" with
    | .error e => .error e
    | .ok dinv =>
      let df1 := inp.setCol "data" (dinv.map E.parseDate)
      match df1.getE "condicao_metereologica" with
      | .error e => .error e
      | .ok cm =>
        let df2 := df1.setCol "clima"
          (cm.map (fun v => Val.str (simplificarClima (asStr v))))
        match criarFeatures E st.encoders df2 with
        | .error e => .error e
        | .ok (xin, encs2, _y) =>
          match xin.select st.featureNames with
          | .error e => .error e
          | .ok xp => .ok (xp, encs2)

/-- Embedding of prever end to end: on success the regressor output is
rounded and clipped to non-negative integers; on an error the state is
returned unchanged alongside the raised error. -/
def preverRun (E : ExtFns) (st : PredState) (inp : Frame) :
    PredState × Except PErr (List ℤ) :=
  match preverCore E st inp with
  | .error e => (st, .error e)
  | .ok (xp, encs2) =>
    ({ st with encoders := encs2 },
     .ok ((E.predict xp).map (fun q => max (npRound q) 0)))

/-- Embedding of salvar_modelo (lines 147-162): the not-trained guard,
then the state that would be pickled.  No state is mutated. -/
def salvarModelo (st : PredState) : Except PErr PredState :=
  if st.treinado = false then .error .notTrained else .ok st

/-! ## Artifact loading (interface.py) -/

/-- A persisted pickle blob as load_model reads it: each component may be
absent.  The regressor component is opaque. -/
structure Blob where
  modelo : Option Unit
  encoders : Option EncState
  features : Option (List String)
deriving DecidableEq

/-- Embedding of interface.load_model (interface.py lines 11-36): a
missing or unreadable file yields None; any successfully unpickled blob
yields a predictor taking each component via .get with a default (empty
registry, empty feature list) and marked trained unconditionally. -/
def loadModel (content : Option Blob) : Option PredState :=
  match content with
  | none => none
  | some d =>
    some { encoders := d.encoders.getD []
           featureNames := d.features.getD []
           treinado := true }

/-! ## Concrete instances used by counterexamples and witnesses -/

/-- A concrete external-function bundle: every abstract library function
returns a fixed value, and the regressor returns one zero per row. -/
def extZero : ExtFns :=
  { parseDate := fun _ => Val.nan
    anoF := fun _ => Val.num 0
    mesF := fun _ => Val.num 0
    diaSemanaF := fun _ => Val.num 0
    diaAnoF := fun _ => Val.num 0
    semanaF := fun _ => Val.num 0
    sinDsF := fun _ => Val.num 0
    cosDsF := fun _ => Val.num 0
    sinDyF := fun _ => Val.num 0
    cosDyF := fun _ => Val.num 0
    feriadoF := fun _ => false
    stdFn := fun _ => 0
    predict := fun f => List.replicate f.nrows 0 }

/-- A trained predictor state with the frozen feature list. -/
def stTrained : PredState :=
  { encoders := [("uf", ["PE"]), ("municipio", ["RECIFE"]),
                 ("tipo_acidente", ["T"]), ("clima", ["Bom"])]
    featureNames := featuresList
    treinado := true }

/-- A predictor state before any training or loading. -/
def stUntrained : PredState :=
  { encoders := [], featureNames := [], treinado := false }

/-- An empty input frame. -/
def emptyFrame : Frame := { nrows := 0, cols := [], val := fun _ => [] }

/-- A one-row prediction input with every column prever documents except
hora_media. -/
def inpNoHora : Frame :=
  { nrows := 1
    cols := ["data_inversa", "horario", "uf", "municipio", "tipo_acidente",
             "condicao_metereologica"]
    val := fun c =>
      if c = "data_inversa" then [Val.str "01/01/2024"]
      else if c = "horario" then [Val.str "12:00:00"]
      else if c = "uf" then [Val.str "PE"]
      else if c = "municipio" then [Val.str "RECIFE"]
      else if c = "tipo_acidente" then [Val.str "T"]
      else if c = "condicao_metereologica" then [Val.str "Bom"]
      else [] }

/-- The same one-row prediction input with hora_media supplied. -/
def inpFull : Frame :=
  { nrows := 1
    cols := ["data_inversa", "horario", "uf", "municipio", "tipo_acidente",
             "condicao_metereologica", "hora_media"]
    val := fun c =>
      if c = "hora_media" then [Val.num 12] else inpNoHora.val c }

/-- Ten one-record days; the municipality "ZZZ" occurs only on the last
day, which falls in the 30% held-out slice of the chronological split. -/
def recsC3 : List RawRec :=
  (List.range 9).map
    (fun i => { data := i, uf := "PE", municipio := "AAA",
                tipo_acidente := "T", condicao := "Bom", hora := 0 }) ++
  [{ data := 9, uf := "PE", municipio := "ZZZ",
     tipo_acidente := "T", condicao := "Bom", hora := 0 }]

/-- The predictor state treinar produces on recsC3. -/
def c3State : PredState :=
  { encoders := [("clima", ["Bom"]), ("tipo_acidente", ["T"]),
                 ("municipio", ["AAA", "ZZZ"]), ("uf", ["PE"])]
    featureNames := featuresList
    treinado := true }

/-- One day with two records whose uf values tie at one occurrence each;
record order is "B" then "A". -/
def recsC9 : List RawRec :=
  [{ data := 0, uf := "B", municipio := "M", tipo_acidente := "T",
     condicao := "C", hora := 0 },
   { data := 0, uf := "A", municipio := "M", tipo_acidente := "T",
     condicao := "C", hora := 0 }]

/-- The single aggregated row of recsC9. -/
def rowC9 : DailyRow :=
  (processarAgg recsC9).headD ⟨0, 0, "", "", "", 0, ""⟩

/-- A persisted blob holding a regressor but no encoders and no feature
list. -/
def blobNoEnc : Blob := { modelo := some (), encoders := none, features := none }

/-- The property that x is a most-frequent value of vals and is least in
Python string order among the tied most-frequent values. -/
def leastTied (x : String) (vals : List String) : Prop :=
  x ∈ vals ∧ countV vals x = maxCountV vals ∧
    ∀ v ∈ vals, countV vals v = maxCountV vals → strLe x v = true

/-! ## Helper lemmas -/

theorem chLe_refl (a : List Char) : chLe a a = true := by
  rcases chLe_total a a with h | h <;> exact h

theorem simplificar_mem_range (s : String) :
    simplificarClima s ∈
      ["Chuva", "Nublado", "Bom", "Vento", "Nevoeiro/Neblina", "Outro"] := by
  unfold simplificarClima
  split_ifs <;> simp

theorem simplificar_fixpoint (s : String) :
    simplificarClima (simplificarClima s) = simplificarClima s := by
  have h := simplificar_mem_range s
  simp only [List.mem_cons, List.not_mem_nil, or_false] at h
  rcases h with h | h | h | h | h | h <;> rw [h] <;> decide

theorem countV_pos {l : List String} {v : String} (hv : v ∈ l) :
    1 ≤ countV l v := by
  have hm : v ∈ l.filter (fun x => x == v) := List.mem_filter.2 ⟨hv, by simp⟩
  have := List.length_pos.2 (List.ne_nil_of_mem hm)
  simpa [countV] using this

theorem le_foldrMax {m : List Nat} {x : Nat} (hx : x ∈ m) :
    x ≤ m.foldr max 0 := by
  induction m with
  | nil => cases hx
  | cons a t ih =>
    rcases List.mem_cons.1 hx with rfl | hx
    · exact le_max_left _ _
    · exact le_trans (ih hx) (le_max_right _ _)

theorem foldrMax_mem {m : List Nat} : m.foldr max 0 = 0 ∨ m.foldr max 0 ∈ m := by
  induction m with
  | nil => exact Or.inl rfl
  | cons a t ih =>
    rcases le_total a (t.foldr max 0) with h | h
    · rw [List.foldr_cons, max_eq_right h]
      rcases ih with h0 | hm
      · exact Or.inl h0
      · exact Or.inr (List.mem_cons_of_mem _ hm)
    · rw [List.foldr_cons, max_eq_left h]
      exact Or.inr (List.mem_cons_self _ _)

theorem maxCountV_attained {l : List String} (hl : l ≠ []) :
    ∃ v ∈ l, countV l v = maxCountV l := by
  rcases foldrMax_mem (m := l.map (countV l)) with h0 | hm
  · obtain ⟨v, hv⟩ := List.exists_mem_of_ne_nil l hl
    have h1 : countV l v ≤ maxCountV l := le_foldrMax (List.mem_map_of_mem _ hv)
    have h2 : 1 ≤ countV l v := countV_pos hv
    have h3 : maxCountV l = 0 := h0
    omega
  · obtain ⟨v, hv, heq⟩ := List.mem_map.1 hm
    exact ⟨v, hv, heq⟩

theorem modeCands_ne_nil {l : List String} (hl : l ≠ []) : modeCands l ≠ [] := by
  obtain ⟨v, hv, hc⟩ := maxCountV_attained hl
  exact List.ne_nil_of_mem
    (List.mem_filter.2 ⟨List.mem_dedup.2 hv, by simp [hc]⟩)

theorem pdModeFirst_leastTied {l : List String} (hl : l ≠ []) :
    leastTied (pdModeFirst l) l := by
  have hcne := modeCands_ne_nil hl
  have hperm := List.perm_insertionSort strLeP (modeCands l)
  have hsorted := List.sorted_insertionSort strLeP (modeCands l)
  cases hh : List.insertionSort strLeP (modeCands l) with
  | nil => exact absurd ((hh ▸ hperm).symm.eq_nil) hcne
  | cons a t =>
    have hhead : pdModeFirst l = a := by rw [pdModeFirst, hh]; rfl
    have hamem : a ∈ modeCands l := hperm.mem_iff.1 (by rw [hh]; exact List.mem_cons_self _ _)
    have hain := List.mem_filter.1 hamem
    have hacount : countV l a = maxCountV l := by
      have := hain.2; simpa using this
    refine ⟨?_, ?_, ?_⟩
    · rw [hhead]; exact List.mem_dedup.1 hain.1
    · rw [hhead]; exact hacount
    · intro v hv hvc
      have hvmem : v ∈ modeCands l :=
        List.mem_filter.2 ⟨List.mem_dedup.2 hv, by simp [hvc]⟩
      have hvs : v ∈ a :: t := by rw [← hh]; exact hperm.mem_iff.2 hvmem
      rw [hhead]
      rcases List.mem_cons.1 hvs with rfl | hvt
      · exact chLe_refl _
      · have := List.rel_of_sorted_cons (hh ▸ hsorted) v hvt
        exact this

theorem processarAgg_mem {recs : List RawRec} {row : DailyRow}
    (h : row ∈ processarAgg recs) :
    row = mkDaily recs row.data ∧ dayGroup recs row.data ≠ [] := by
  obtain ⟨d, hd, rfl⟩ := List.mem_map.1 h
  refine ⟨rfl, ?_⟩
  have hd2 : d ∈ ((recs.map simplRec).map (fun r => r.data)).dedup :=
    (List.perm_insertionSort _ _).mem_iff.1 hd
  obtain ⟨r, hr, hrd⟩ := List.mem_map.1 (List.mem_dedup.1 hd2)
  exact List.ne_nil_of_mem (List.mem_filter.2 ⟨hr, by simp [mkDaily, hrd]⟩)

theorem dayGroup_condicao_simplified {recs : List RawRec} {d : Nat} {v : String}
    (hv : v ∈ (dayGroup recs d).map (fun r => r.condicao)) :
    simplificarClima v = v := by
  obtain ⟨r, hr, rfl⟩ := List.mem_map.1 hv
  obtain ⟨r0, _, rfl⟩ := List.mem_map.1 (List.mem_filter.1 hr).1
  exact simplificar_fixpoint r0.condicao

/-! ## Claims C4, C8, C9, C10 -/

/-- C4: for every fitted encoder, encoding is deterministic (encodeSafe is
a pure function of the frozen classes and always returns the unique code
encodeVal yields), a value inside the fitted vocabulary encodes to its
index in classes_, and any value outside the vocabulary encodes to the
sentinel -1 and never raises (the result is never none). -/
theorem c4_encoding_stable (classes : List String) (x : String) :
    (encodeSafe classes x).isSome = true ∧
    encodeSafe classes x = some (encodeVal classes x) ∧
    (x ∈ classes → encodeSafe classes x = some ((classes.indexOf x : ℤ))) ∧
    (x ∉ classes → encodeSafe classes x = some (-1)) := by
  unfold encodeSafe leTransform encodeVal
  by_cases h : x ∈ classes <;> simp [h]

/-- Witness for c4_encoding_stable at the spec's own example: an encoder
fitted on PE and SP encodes the unseen BA to the sentinel and PE to its
index. -/
theorem c4_witness :
    encodeSafe ["PE", "SP"] "BA" = some (-1) ∧
    encodeSafe ["PE", "SP"] "PE" = some ((["PE", "SP"].indexOf "PE" : ℤ)) :=
  ⟨(c4_encoding_stable ["PE", "SP"] "BA").2.2.2 (by decide),
   (c4_encoding_stable ["PE", "SP"] "PE").2.2.1 (by decide)⟩

/-- C8 counterexample: the training-side and generator-side weather
normalizers are not extensionally equal; on the input "Bom" the predictor
version returns "Bom" while the data_generator version returns "Outro". -/
theorem c8_cex :
    simplificarClima "Bom" = "Bom" ∧ simplificarClimaGen "Bom" = "Outro" ∧
    simplificarClima "Bom" ≠ simplificarClimaGen "Bom" := by decide

/-- C8 (amended): the two normalizers agree on every input string that
does not contain the substring "Bom"; they may differ (and do, on "Bom")
when that keyword occurs without a higher-priority keyword. -/
theorem c8_agree_no_bom (cond : String) (h : pyIn "Bom" cond = false) :
    simplificarClima cond = simplificarClimaGen cond := by
  simp only [simplificarClima, simplificarClimaGen, h, Bool.or_false]

/-- Witness for c8_agree_no_bom on a rain description. -/
theorem c8_witness :
    pyIn "Bom" "Chuva forte" = false ∧
    simplificarClima "Chuva forte" = simplificarClimaGen "Chuva forte" :=
  ⟨by decide, c8_agree_no_bom "Chuva forte" (by decide)⟩

/-- C9 counterexample: with two records of one day carrying uf values "B"
then "A" (a tie at one occurrence each), the aggregated representative is
"A", the sorted-first value, not the first-encountered "B". -/
theorem c9_cex :
    (processarAgg recsC9).map (fun r => r.uf) = ["A"] ∧
    (dayGroup recsC9 0).map (fun r => r.uf) = ["B", "A"] ∧
    countV ["B", "A"] "A" = countV ["B", "A"] "B" ∧
    (["B", "A"].headD "") = "B" ∧ "A" ≠ "B" := by decide

/-- C9 (amended): for every aggregated row, each categorical
representative (state, municipality, accident-type, weather class) is a
most-frequent value of its day group and, among tied most-frequent
values, the least in Python string order — pandas mode()[0] — rather
than the first-encountered value. -/
theorem c9_tie_break (recs : List RawRec) (row : DailyRow)
    (h : row ∈ processarAgg recs) :
    dayGroup recs row.data ≠ [] ∧
    leastTied row.uf ((dayGroup recs row.data).map (fun r => r.uf)) ∧
    leastTied row.municipio ((dayGroup recs row.data).map (fun r => r.municipio)) ∧
    leastTied row.tipo_acidente
      ((dayGroup recs row.data).map (fun r => r.tipo_acidente)) ∧
    leastTied row.clima ((dayGroup recs row.data).map (fun r => r.condicao)) := by
  obtain ⟨hrow, hne⟩ := processarAgg_mem h
  have hufne : (dayGroup recs row.data).map (fun r => r.uf) ≠ [] :=
    fun h' => hne (List.map_eq_nil_iff.1 h')
  have hmune : (dayGroup recs row.data).map (fun r => r.municipio) ≠ [] :=
    fun h' => hne (List.map_eq_nil_iff.1 h')
  have htine : (dayGroup recs row.data).map (fun r => r.tipo_acidente) ≠ [] :=
    fun h' => hne (List.map_eq_nil_iff.1 h')
  have hcsne : (dayGroup recs row.data).map (fun r => r.condicao) ≠ [] :=
    fun h' => hne (List.map_eq_nil_iff.1 h')
  have huf : row.uf = pdModeFirst ((dayGroup recs row.data).map (fun r => r.uf)) := by
    conv_lhs => rw [hrow]
    rfl
  have hmu : row.municipio =
      pdModeFirst ((dayGroup recs row.data).map (fun r => r.municipio)) := by
    conv_lhs => rw [hrow]
    rfl
  have hti : row.tipo_acidente =
      pdModeFirst ((dayGroup recs row.data).map (fun r => r.tipo_acidente)) := by
    conv_lhs => rw [hrow]
    rfl
  have hcl : row.clima =
      simplificarClima
        (pdModeFirst ((dayGroup recs row.data).map (fun r => r.condicao))) := by
    conv_lhs => rw [hrow]
    rfl
  refine ⟨hne, ?_, ?_, ?_, ?_⟩
  · rw [huf]; exact pdModeFirst_leastTied hufne
  · rw [hmu]; exact pdModeFirst_leastTied hmune
  · rw [hti]; exact pdModeFirst_leastTied htine
  · rw [hcl, dayGroup_condicao_simplified ((pdModeFirst_leastTied hcsne).1)]
    exact pdModeFirst_leastTied hcsne

/-- Witness for c9_tie_break on the aggregated row of recsC9. -/
theorem c9_witness :
    rowC9 ∈ processarAgg recsC9 ∧
    leastTied rowC9.uf ((dayGroup recsC9 rowC9.data).map (fun r => r.uf)) := by
  have hmem : rowC9 ∈ processarAgg recsC9 := List.mem_cons_self _ _
  exact ⟨hmem, (c9_tie_break recsC9 rowC9 hmem).2.1⟩

/-- C10: the predictor's weather normalizer is idempotent — every output
is a fixed point — and therefore the second application of the normalizer
inside _processar_dados (line 59) leaves the per-day modal weather value
unchanged: every aggregated row's clima equals the plain mode of its
group's already-normalized weather values. -/
theorem c10_idempotent (s : String) (recs : List RawRec) (row : DailyRow)
    (h : row ∈ processarAgg recs) :
    simplificarClima (simplificarClima s) = simplificarClima s ∧
    row.clima = pdModeFirst ((dayGroup recs row.data).map (fun r => r.condicao)) := by
  obtain ⟨hrow, hne⟩ := processarAgg_mem h
  refine ⟨simplificar_fixpoint s, ?_⟩
  have hcsne : (dayGroup recs row.data).map (fun r => r.condicao) ≠ [] :=
    fun h' => hne (List.map_eq_nil_iff.1 h')
  have hcl : row.clima =
      simplificarClima
        (pdModeFirst ((dayGroup recs row.data).map (fun r => r.condicao))) := by
    conv_lhs => rw [hrow]
    rfl
  rw [hcl]
  exact dayGroup_condicao_simplified ((pdModeFirst_leastTied hcsne).1)

/-- Witness for c10_idempotent on a drizzle string and the aggregated row
of recsC9. -/
theorem c10_witness :
    simplificarClima (simplificarClima "Garoa") = simplificarClima "Garoa" ∧
    rowC9.clima = pdModeFirst ((dayGroup recsC9 rowC9.data).map (fun r => r.condicao)) :=
  c10_idempotent "Garoa" recsC9 rowC9 (List.mem_cons_self _ _)

/-! ## Claims C6, C7 -/

/-- C6: calling prever or salvar_modelo on a predictor whose trained flag
is unset raises the not-trained RuntimeError, the error is returned to
the caller, and the predictor state accompanying the failed prever call
is exactly the input state. -/
theorem c6_not_trained (E : ExtFns) (st : PredState) (inp : Frame)
    (h : st.treinado = false) :
    preverRun E st inp = (st, .error .notTrained) ∧
    salvarModelo st = .error .notTrained := by
  constructor
  · unfold preverRun preverCore
    simp only [h]
    rfl
  · simp [salvarModelo, h]

/-- Witness for c6_not_trained on a fresh predictor and an empty input. -/
theorem c6_witness :
    stUntrained.treinado = false ∧
    preverRun extZero stUntrained emptyFrame = (stUntrained, .error .notTrained) ∧
    salvarModelo stUntrained = .error .notTrained :=
  ⟨rfl, (c6_not_trained extZero stUntrained emptyFrame rfl).1,
   (c6_not_trained extZero stUntrained emptyFrame rfl).2⟩

/-- C7 counterexample: loading a blob that has a regressor but neither
encoders nor a feature list succeeds, producing a predictor marked
trained with an empty registry and empty feature list, and that predictor
passes the trained guard (salvar_modelo succeeds on it) instead of the
load failing. -/
theorem c7_cex :
    loadModel (some blobNoEnc) =
      some { encoders := [], featureNames := [], treinado := true } ∧
    salvarModelo { encoders := [], featureNames := [], treinado := true } =
      .ok { encoders := [], featureNames := [], treinado := true } := by
  constructor <;> rfl

/-- C7 (amended): load_model treats only a missing or unreadable file as
a load failure; every successfully unpickled blob is accepted, each
missing component is silently replaced by a default (empty encoder
registry, empty feature list) and the result is marked trained, so the
loaded predictor operates rather than failing. -/
theorem c7_lenient_load (b : Blob) :
    loadModel none = none ∧
    loadModel (some b) =
      some { encoders := b.encoders.getD [], featureNames := b.features.getD [],
             treinado := true } ∧
    ∀ st, loadModel (some b) = some st → salvarModelo st = .ok st := by
  refine ⟨rfl, rfl, ?_⟩
  intro st hst
  have hst2 : st = { encoders := b.encoders.getD [],
                     featureNames := b.features.getD [], treinado := true } :=
    Option.some.inj hst.symm
  rw [hst2]
  rfl

/-- Witness for c7_lenient_load on the encoder-less blob. -/
theorem c7_witness :
    salvarModelo { encoders := blobNoEnc.encoders.getD [],
                   featureNames := blobNoEnc.features.getD [],
                   treinado := true } =
      .ok { encoders := blobNoEnc.encoders.getD [],
            featureNames := blobNoEnc.features.getD [], treinado := true } :=
  (c7_lenient_load blobNoEnc).2.2 _ (c7_lenient_load blobNoEnc).2.1

/-! ## Claim C3: counterexample -/

/-- C3 counterexample: training on recsC3 fits the municipality encoder
on the full 10-day series, so its vocabulary contains "ZZZ" even though
"ZZZ" occurs in no row of the 70% training slice (rows 0..6) and only in
the held-out test slice. -/
theorem c3_cex :
    treinar extZero recsC3 = .ok c3State ∧
    (∃ cls, List.lookup "municipio" c3State.encoders = some cls ∧ "ZZZ" ∈ cls) ∧
    "ZZZ" ∉ (((processarAgg recsC3).take
      (splitIndex (processarAgg recsC3).length)).map (fun r => r.municipio)) ∧
    "ZZZ" ∈ (((processarAgg recsC3).drop
      (splitIndex (processarAgg recsC3).length)).map (fun r => r.municipio)) := by
  refine ⟨rfl, ⟨["AAA", "ZZZ"], rfl, by decide⟩, by decide, by decide⟩

/-! ## Claim C2: lag and rolling window semantics -/

theorem shiftOpt_length (k : Nat) (xs : List (Option ℚ)) :
    (shiftOpt k xs).length = xs.length := by
  simp [shiftOpt]

theorem shiftOpt_getElem? (k : Nat) (xs : List (Option ℚ)) (i : Nat)
    (hi : i < xs.length) :
    (shiftOpt k xs)[i]? = if i < k then some none else xs[i - k]? := by
  unfold shiftOpt
  rw [List.getElem?_take, if_pos hi]
  by_cases hik : i < k
  · rw [List.getElem?_append_left (by simpa using hik), if_pos hik]
    simp [List.getElem?_replicate, hik]
  · rw [List.getElem?_append_right (by simpa using (by omega : k ≤ i)), if_neg hik]
    simp

theorem filterMap_id_map_some (l : List ℚ) :
    List.filterMap id (l.map some) = l := by
  induction l with
  | nil => rfl
  | cons a t ih => simp [List.filterMap_cons, ih]

theorem windowAt_shift_one (w : Nat) (xs : List ℚ) (i : Nat)
    (hi : i < xs.length) :
    windowAt w (shiftOpt 1 (xs.map some)) i = (xs.take i).drop (i - w) := by
  unfold windowAt shiftOpt
  have h1 : List.replicate 1 (none : Option ℚ) ++ xs.map some = none :: xs.map some := by
    simp
  rw [h1, List.take_take]
  have hmin : min (i + 1) (xs.map some).length = i + 1 := by
    rw [List.length_map]; omega
  rw [hmin]
  have h4 : (none :: xs.map some).take (i + 1) = none :: (xs.map some).take i := rfl
  rw [h4]
  by_cases hw : w ≤ i
  · have h2 : i + 1 - w = (i - w) + 1 := by omega
    rw [h2, List.drop_succ_cons, ← List.map_take, ← List.map_drop]
    exact filterMap_id_map_some _
  · have h2 : i + 1 - w = 0 := by omega
    have h3 : i - w = 0 := by omega
    rw [h2, h3, List.drop_zero, List.drop_zero, ← List.map_take]
    rw [List.filterMap_cons]
    exact filterMap_id_map_some _

theorem rollMeanMP1_getElem? (w : Nat) (s : List (Option ℚ)) (i : Nat)
    (hi : i < s.length) :
    (rollMeanMP1 w s)[i]? =
      some (if 1 ≤ (windowAt w s i).length then some (listMean (windowAt w s i))
            else none) := by
  unfold rollMeanMP1
  rw [List.getElem?_map]
  simp [List.getElem?_range, hi]

theorem rollStdMP1_getElem? (stdFn : List ℚ → ℚ) (w : Nat) (s : List (Option ℚ))
    (i : Nat) (hi : i < s.length) :
    (rollStdMP1 stdFn w s)[i]? =
      some (if 2 ≤ (windowAt w s i).length then some (stdFn (windowAt w s i))
            else none) := by
  unfold rollStdMP1
  rw [List.getElem?_map]
  simp [List.getElem?_range, hi]

theorem lagFeature_getD (k : Nat) (xs : List ℚ) (i : Nat) (hi : i < xs.length) :
    (lagFeature k xs).getD i 0 = if k ≤ i then xs.getD (i - k) 0 else 0 := by
  unfold lagFeature
  rw [List.getD_eq_getElem?_getD, List.getElem?_map,
    shiftOpt_getElem? k _ i (by simpa using hi)]
  by_cases hk : k ≤ i
  · rw [if_neg (by omega : ¬ i < k), if_pos hk]
    have hik : i - k < xs.length := by omega
    rw [List.getElem?_map, List.getElem?_eq_getElem hik,
      List.getD_eq_getElem?_getD, List.getElem?_eq_getElem hik]
    rfl
  · rw [if_pos (by omega : i < k), if_neg hk]
    rfl

theorem mediaFeature_getD (w : Nat) (hw : 1 ≤ w) (xs : List ℚ) (i : Nat)
    (hi : i < xs.length) :
    (mediaFeature w xs).getD i 0 =
      if 1 ≤ i then listMean ((xs.take i).drop (i - w)) else 0 := by
  have hslen : i < (shiftOpt 1 (xs.map some)).length := by
    rw [shiftOpt_length, List.length_map]; exact hi
  unfold mediaFeature
  rw [List.getD_eq_getElem?_getD, List.getElem?_map,
    rollMeanMP1_getElem? w _ i hslen, windowAt_shift_one w xs i hi]
  have hlen : ((xs.take i).drop (i - w)).length = i - (i - w) := by
    rw [List.length_drop, List.length_take, min_eq_left hi.le]
  rw [hlen]
  by_cases h1 : 1 ≤ i
  · rw [if_pos (by omega : 1 ≤ i - (i - w)), if_pos h1]
    rfl
  · rw [if_neg (by omega : ¬ 1 ≤ i - (i - w)), if_neg h1]
    rfl

theorem stdFeature_getD (stdFn : List ℚ → ℚ) (w : Nat) (xs : List ℚ) (i : Nat)
    (hi : i < xs.length) :
    (stdFeature stdFn w xs).getD i 0 =
      if 2 ≤ ((xs.take i).drop (i - w)).length then
        stdFn ((xs.take i).drop (i - w)) else 0 := by
  have hslen : i < (shiftOpt 1 (xs.map some)).length := by
    rw [shiftOpt_length, List.length_map]; exact hi
  unfold stdFeature
  rw [List.getD_eq_getElem?_getD, List.getElem?_map,
    rollStdMP1_getElem? stdFn w _ i hslen, windowAt_shift_one w xs i hi]
  by_cases h2 : 2 ≤ ((xs.take i).drop (i - w)).length
  · rw [if_pos h2, if_pos h2]
    rfl
  · rw [if_neg h2, if_neg h2]
    rfl

/-- C2: for every acidentes series and every row index i, each lag_k
column value (k in 1,2,7,14) equals the count k rows earlier, 0 when no
such row exists; each rolling mean over window w (7,14,28) is the mean of
exactly the at most w rows strictly preceding row i — written as a slice
of the first i rows only, so row i's own count never enters — with 0 when
no preceding row exists; and each rolling standard deviation applies its
statistic to the same strictly-preceding slice, with 0 whenever fewer
than the two observations the ddof-1 statistic needs are available.  The
statistic stdFn is universally quantified, so the dependence structure
holds for any statistic, in particular NumPy's sample standard
deviation. -/
theorem c2_leakage (stdFn : List ℚ → ℚ) (xs : List ℚ) (i : Nat)
    (hi : i < xs.length) :
    (∀ k ∈ ([1, 2, 7, 14] : List Nat),
      (lagFeature k xs).getD i 0 = if k ≤ i then xs.getD (i - k) 0 else 0) ∧
    (∀ w ∈ ([7, 14, 28] : List Nat),
      (mediaFeature w xs).getD i 0 =
        (if 1 ≤ i then listMean ((xs.take i).drop (i - w)) else 0) ∧
      (stdFeature stdFn w xs).getD i 0 =
        (if 2 ≤ ((xs.take i).drop (i - w)).length then
          stdFn ((xs.take i).drop (i - w)) else 0)) := by
  refine ⟨fun k _ => lagFeature_getD k xs i hi, fun w hw => ⟨?_, ?_⟩⟩
  · have h1w : 1 ≤ w := by fin_cases hw <;> norm_num
    exact mediaFeature_getD w h1w xs i hi
  · exact stdFeature_getD stdFn w xs i hi

/-- Witness for c2_leakage on the three-day series 3, 1, 4 at row 2:
lag_1 there evaluates to the previous count and media_7 to the mean of
the two strictly preceding counts. -/
theorem c2_witness :
    (lagFeature 1 [3, 1, 4]).getD 2 0 = (1 : ℚ) ∧
    (mediaFeature 7 [3, 1, 4]).getD 2 0 = listMean [3, 1] ∧
    (∀ k ∈ ([1, 2, 7, 14] : List Nat),
      (lagFeature k [3, 1, 4]).getD 2 0 =
        if k ≤ 2 then ([3, 1, 4] : List ℚ).getD (2 - k) 0 else 0) ∧
    (∀ w ∈ ([7, 14, 28] : List Nat),
      (mediaFeature w [3, 1, 4]).getD 2 0 =
        (if 1 ≤ 2 then listMean ((([3, 1, 4] : List ℚ).take 2).drop (2 - w)) else 0) ∧
      (stdFeature (fun _ => 0) w [3, 1, 4]).getD 2 0 =
        (if 2 ≤ ((([3, 1, 4] : List ℚ).take 2).drop (2 - w)).length then
          (fun _ => (0 : ℚ)) ((([3, 1, 4] : List ℚ).take 2).drop (2 - w)) else 0)) :=
  ⟨by rfl, by rfl, c2_leakage (fun _ => 0) [3, 1, 4] 2 (by norm_num)⟩

/-! ## Frame lemmas -/

theorem Frame.nrows_setCol (f : Frame) (c : String) (xs : Col) :
    (f.setCol c xs).nrows = f.nrows := rfl

theorem Frame.mem_setCol {f : Frame} {c2 c : String} {xs : Col} :
    c2 ∈ (f.setCol c xs).cols ↔ c2 = c ∨ c2 ∈ f.cols := by
  unfold Frame.setCol
  by_cases h : c ∈ f.cols
  · simp only [h, if_pos]
    constructor
    · exact Or.inr
    · rintro (rfl | h2)
      · exact h
      · exact h2
  · simp [h, or_comm]

theorem Frame.val_setCol_self (f : Frame) (c : String) (xs : Col) :
    (f.setCol c xs).val c = xs := by simp [Frame.setCol]

theorem Frame.val_setCol_ne {c2 c : String} (h : c2 ≠ c) (f : Frame) (xs : Col) :
    (f.setCol c xs).val c2 = f.val c2 := by simp [Frame.setCol, h]

theorem calFrame_nrows (E : ExtFns) (f0 : Frame) (dataCol : Col) :
    (calFrame E f0 dataCol).nrows = f0.nrows := by
  simp only [calFrame, Frame.nrows_setCol]

theorem mem_calFrame {E : ExtFns} {f0 : Frame} {dataCol : Col} {c : String} :
    c ∈ (calFrame E f0 dataCol).cols ↔ c ∈ calNames ∨ c ∈ f0.cols := by
  simp only [calFrame, Frame.mem_setCol, calNames, List.mem_cons, List.not_mem_nil,
    or_false]
  tauto

theorem val_calFrame_not {c : String} (hc : c ∉ calNames) (E : ExtFns)
    (f0 : Frame) (dataCol : Col) :
    (calFrame E f0 dataCol).val c = f0.val c := by
  simp only [calNames, List.mem_cons, List.not_mem_nil, or_false, not_or] at hc
  obtain ⟨h1, h2, h3, h4, h5, h6, h7, h8, h9, h10, h11, h12⟩ := hc
  simp only [calFrame]
  rw [Frame.val_setCol_ne h12, Frame.val_setCol_ne h11, Frame.val_setCol_ne h10,
    Frame.val_setCol_ne h9, Frame.val_setCol_ne h8, Frame.val_setCol_ne h7,
    Frame.val_setCol_ne h6, Frame.val_setCol_ne h5, Frame.val_setCol_ne h4,
    Frame.val_setCol_ne h3, Frame.val_setCol_ne h2, Frame.val_setCol_ne h1]

theorem lagFrame_nrows (E : ExtFns) (f : Frame) :
    (lagFrame E f).nrows = f.nrows := by
  unfold lagFrame
  split <;> simp only [Frame.setScalar, Frame.nrows_setCol]

theorem mem_lagFrame {E : ExtFns} {f : Frame} {c : String} :
    c ∈ (lagFrame E f).cols ↔ c ∈ lagNames ∨ c ∈ f.cols := by
  unfold lagFrame
  split <;>
    · simp only [Frame.setScalar, Frame.mem_setCol, lagNames, List.mem_cons,
        List.not_mem_nil, or_false]
      tauto

theorem val_lagFrame_not {c : String} (hc : c ∉ lagNames) (E : ExtFns) (f : Frame) :
    (lagFrame E f).val c = f.val c := by
  simp only [lagNames, List.mem_cons, List.not_mem_nil, or_false, not_or] at hc
  obtain ⟨h1, h2, h3, h4, h5, h6, h7, h8, h9, h10⟩ := hc
  unfold lagFrame
  split <;>
    · simp only [Frame.setScalar]
      rw [Frame.val_setCol_ne h10, Frame.val_setCol_ne h9, Frame.val_setCol_ne h8,
        Frame.val_setCol_ne h7, Frame.val_setCol_ne h6, Frame.val_setCol_ne h5,
        Frame.val_setCol_ne h4, Frame.val_setCol_ne h3, Frame.val_setCol_ne h2,
        Frame.val_setCol_ne h1]

theorem val_lagFrame_zero {c : String} (E : ExtFns) {f : Frame}
    (hac : "acidentes" ∉ f.cols) (hc : c ∈ lagNames) :
    (lagFrame E f).val c = List.replicate f.nrows (Val.num 0) := by
  unfold lagFrame
  rw [if_neg hac]
  fin_cases hc <;>
    simp only [Frame.setScalar, Frame.val_setCol_ne, Frame.val_setCol_self,
      Frame.nrows_setCol, ne_eq, String.reduceEq, not_false_eq_true]

theorem fillna0_cols (f : Frame) : (f.fillna0).cols = f.cols := rfl

theorem fillna0_nrows (f : Frame) : (f.fillna0).nrows = f.nrows := rfl

theorem fillna0_val (f : Frame) (c : String) :
    (f.fillna0).val c = (f.val c).map fillVal := rfl

theorem encStep_nrows (p : Frame × EncState) (c : String) :
    (encStep p c).1.nrows = p.1.nrows := by
  unfold encStep
  by_cases h : c ∈ p.1.cols
  · rw [if_pos h]
    cases List.lookup c p.2 <;> rfl
  · rw [if_neg h]; rfl

theorem mem_encStep {p : Frame × EncState} {c c2 : String} :
    c2 ∈ (encStep p c).1.cols ↔ c2 = c ++ "_enc" ∨ c2 ∈ p.1.cols := by
  unfold encStep
  by_cases h : c ∈ p.1.cols
  · rw [if_pos h]
    cases List.lookup c p.2 <;> exact Frame.mem_setCol
  · rw [if_neg h]; exact Frame.mem_setCol

theorem val_encStep_ne {c c2 : String} (h : c2 ≠ c ++ "_enc")
    (p : Frame × EncState) :
    (encStep p c).1.val c2 = p.1.val c2 := by
  unfold encStep
  by_cases hm : c ∈ p.1.cols
  · rw [if_pos hm]
    cases List.lookup c p.2 <;> exact Frame.val_setCol_ne h _ _
  · rw [if_neg hm]; exact Frame.val_setCol_ne h _ _

theorem encStep_absent {c : String} {p : Frame × EncState} (h : c ∉ p.1.cols) :
    (encStep p c).1.val (c ++ "_enc") = List.replicate p.1.nrows (Val.num 0) ∧
    (encStep p c).2 = p.2 := by
  unfold encStep
  rw [if_neg h]
  exact ⟨Frame.val_setCol_self _ _ _, rfl⟩

theorem encStep_fit {c : String} {p : Frame × EncState} (h : c ∈ p.1.cols)
    (hl : List.lookup c p.2 = none) :
    (encStep p c).2 = (c, leClasses ((p.1.val c).map asStr)) :: p.2 := by
  unfold encStep
  rw [if_pos h, hl]

theorem Frame.getE_ok {f : Frame} {c : String} (h : c ∈ f.cols) :
    f.getE c = .ok (f.val c) := by
  unfold Frame.getE
  rw [if_pos h]

theorem Frame.select_ok {f : Frame} {cs : List String}
    (h : cs.all (fun c => f.cols.contains c) = true) :
    f.select cs = .ok ⟨f.nrows, cs, f.val⟩ := by
  unfold Frame.select
  rw [if_pos h]

theorem encFrame_nrows (encs : EncState) (f : Frame) :
    (encFrame encs f).1.nrows = f.nrows := by
  simp only [encFrame, encStep_nrows]

theorem mem_encFrame {encs : EncState} {f : Frame} {c : String} :
    c ∈ (encFrame encs f).1.cols ↔
      c = "uf_enc" ∨ c = "municipio_enc" ∨ c = "tipo_acidente_enc" ∨
      c = "clima_enc" ∨ c ∈ f.cols := by
  simp only [encFrame, mem_encStep,
    show ("uf" : String) ++ "_enc" = "uf_enc" from rfl,
    show ("municipio" : String) ++ "_enc" = "municipio_enc" from rfl,
    show ("tipo_acidente" : String) ++ "_enc" = "tipo_acidente_enc" from rfl,
    show ("clima" : String) ++ "_enc" = "clima_enc" from rfl]
  tauto

theorem val_encFrame_not {c : String} (h1 : c ≠ "uf_enc") (h2 : c ≠ "municipio_enc")
    (h3 : c ≠ "tipo_acidente_enc") (h4 : c ≠ "clima_enc")
    (encs : EncState) (f : Frame) :
    (encFrame encs f).1.val c = f.val c := by
  simp only [encFrame]
  rw [@val_encStep_ne "clima" c h4 _, @val_encStep_ne "tipo_acidente" c h3 _,
    @val_encStep_ne "municipio" c h2 _, @val_encStep_ne "uf" c h1 _]

theorem encFrame_uf_absent {encs : EncState} {f : Frame} (h : "uf" ∉ f.cols) :
    (encFrame encs f).1.val "uf_enc" = List.replicate f.nrows (Val.num 0) := by
  simp only [encFrame]
  rw [@val_encStep_ne "clima" "uf_enc" (by decide) _,
    @val_encStep_ne "tipo_acidente" "uf_enc" (by decide) _,
    @val_encStep_ne "municipio" "uf_enc" (by decide) _]
  exact (encStep_absent (p := (f, encs)) h).1

theorem encFrame_municipio_absent {encs : EncState} {f : Frame}
    (h : "municipio" ∉ f.cols) :
    (encFrame encs f).1.val "municipio_enc" = List.replicate f.nrows (Val.num 0) := by
  simp only [encFrame]
  rw [@val_encStep_ne "clima" "municipio_enc" (by decide) _,
    @val_encStep_ne "tipo_acidente" "municipio_enc" (by decide) _]
  have hm : "municipio" ∉ (encStep (f, encs) "uf").1.cols := by
    simp [mem_encStep, h]
  have h2 := (encStep_absent hm).1
  rw [encStep_nrows] at h2
  exact h2

theorem encFrame_tipo_absent {encs : EncState} {f : Frame}
    (h : "tipo_acidente" ∉ f.cols) :
    (encFrame encs f).1.val "tipo_acidente_enc" =
      List.replicate f.nrows (Val.num 0) := by
  simp only [encFrame]
  rw [@val_encStep_ne "clima" "tipo_acidente_enc" (by decide) _]
  have hm : "tipo_acidente" ∉ (encStep (encStep (f, encs) "uf") "municipio").1.cols := by
    simp [mem_encStep, h]
  have h2 := (encStep_absent hm).1
  rw [encStep_nrows, encStep_nrows] at h2
  exact h2

theorem mem_built {E : ExtFns} {encs : EncState} {f0 : Frame} {dataCol : Col}
    {c : String} :
    c ∈ (encFrame encs ((lagFrame E (calFrame E f0 dataCol)).fillna0)).1.cols ↔
      c = "uf_enc" ∨ c = "municipio_enc" ∨ c = "tipo_acidente_enc" ∨
      c = "clima_enc" ∨ c ∈ lagNames ∨ c ∈ calNames ∨ c ∈ f0.cols := by
  rw [mem_encFrame, fillna0_cols, mem_lagFrame, mem_calFrame]

theorem all_features_mem {E : ExtFns} {encs : EncState} {f0 : Frame}
    {dataCol : Col} (hh : "hora_media" ∈ f0.cols) :
    featuresList.all
      (fun c =>
        ((encFrame encs ((lagFrame E (calFrame E f0 dataCol)).fillna0)).1.cols).contains c)
      = true := by
  rw [List.all_eq_true]
  intro c hc
  rw [List.elem_iff, mem_built]
  fin_cases hc <;> simp [lagNames, calNames, hh]

theorem criarFeatures_ok (E : ExtFns) (encs : EncState) (f0 : Frame)
    (hd : "data" ∈ f0.cols) (hh : "hora_media" ∈ f0.cols) :
    criarFeatures E encs f0 =
      .ok (⟨(encFrame encs ((lagFrame E (calFrame E f0 (f0.val "data"))).fillna0)).1.nrows,
            featuresList,
            (encFrame encs ((lagFrame E (calFrame E f0 (f0.val "data"))).fillna0)).1.val⟩,
           (encFrame encs ((lagFrame E (calFrame E f0 (f0.val "data"))).fillna0)).2,
           if "acidentes" ∈
               (encFrame encs ((lagFrame E (calFrame E f0 (f0.val "data"))).fillna0)).1.cols
           then some
             ((encFrame encs ((lagFrame E (calFrame E f0 (f0.val "data"))).fillna0)).1.val
               "acidentes")
           else none) := by
  have hget := Frame.getE_ok hd
  have hsel := Frame.select_ok
    (f := (encFrame encs ((lagFrame E (calFrame E f0 (f0.val "data"))).fillna0)).1)
    (all_features_mem hh)
  simp only [criarFeatures, hget, hsel]

theorem built_lag_zero {E : ExtFns} {encs : EncState} {f0 : Frame}
    (hac : "acidentes" ∉ f0.cols) {c : String} (hc : c ∈ lagNames) :
    (encFrame encs ((lagFrame E (calFrame E f0 (f0.val "data"))).fillna0)).1.val c =
      List.replicate f0.nrows (Val.num 0) := by
  have henc : (encFrame encs ((lagFrame E (calFrame E f0 (f0.val "data"))).fillna0)).1.val c =
      ((lagFrame E (calFrame E f0 (f0.val "data"))).fillna0).val c := by
    refine val_encFrame_not ?_ ?_ ?_ ?_ _ _ <;> (fin_cases hc <;> decide)
  rw [henc, fillna0_val]
  have hac2 : "acidentes" ∉ (calFrame E f0 (f0.val "data")).cols := by
    rw [mem_calFrame]
    simp [calNames, hac]
  rw [val_lagFrame_zero E hac2 hc, calFrame_nrows]
  simp [fillVal]

theorem built_uf_enc_zero {E : ExtFns} {encs : EncState} {f0 : Frame}
    (h : "uf" ∉ f0.cols) :
    (encFrame encs ((lagFrame E (calFrame E f0 (f0.val "data"))).fillna0)).1.val "uf_enc" =
      List.replicate f0.nrows (Val.num 0) := by
  have h2 : "uf" ∉ ((lagFrame E (calFrame E f0 (f0.val "data"))).fillna0).cols := by
    rw [fillna0_cols, mem_lagFrame, mem_calFrame]
    simp [lagNames, calNames, h]
  rw [encFrame_uf_absent h2, fillna0_nrows, lagFrame_nrows, calFrame_nrows]

theorem built_municipio_enc_zero {E : ExtFns} {encs : EncState} {f0 : Frame}
    (h : "municipio" ∉ f0.cols) :
    (encFrame encs ((lagFrame E (calFrame E f0 (f0.val "data"))).fillna0)).1.val
      "municipio_enc" = List.replicate f0.nrows (Val.num 0) := by
  have h2 : "municipio" ∉ ((lagFrame E (calFrame E f0 (f0.val "data"))).fillna0).cols := by
    rw [fillna0_cols, mem_lagFrame, mem_calFrame]
    simp [lagNames, calNames, h]
  rw [encFrame_municipio_absent h2, fillna0_nrows, lagFrame_nrows, calFrame_nrows]

theorem built_tipo_enc_zero {E : ExtFns} {encs : EncState} {f0 : Frame}
    (h : "tipo_acidente" ∉ f0.cols) :
    (encFrame encs ((lagFrame E (calFrame E f0 (f0.val "data"))).fillna0)).1.val
      "tipo_acidente_enc" = List.replicate f0.nrows (Val.num 0) := by
  have h2 : "tipo_acidente" ∉ ((lagFrame E (calFrame E f0 (f0.val "data"))).fillna0).cols := by
    rw [fillna0_cols, mem_lagFrame, mem_calFrame]
    simp [lagNames, calNames, h]
  rw [encFrame_tipo_absent h2, fillna0_nrows, lagFrame_nrows, calFrame_nrows]

theorem built_nrows {E : ExtFns} {encs : EncState} {f0 : Frame} :
    (encFrame encs ((lagFrame E (calFrame E f0 (f0.val "data"))).fillna0)).1.nrows =
      f0.nrows := by
  rw [encFrame_nrows, fillna0_nrows, lagFrame_nrows, calFrame_nrows]

theorem npRound_nearest (q : ℚ) : |q - (npRound q : ℚ)| ≤ 1 / 2 := by
  have h0 : (0 : ℚ) ≤ q - ⌊q⌋ := sub_nonneg.2 (Int.floor_le q)
  have h1 : q - ⌊q⌋ < 1 := by
    have := Int.lt_floor_add_one q
    linarith
  unfold npRound
  split_ifs with ha hb hc <;> rw [abs_le] <;> constructor <;> push_cast <;> linarith

theorem preverCore_spec (E : ExtFns) (st : PredState) (inp : Frame)
    (ht : st.treinado = true) (hfn : st.featureNames = featuresList)
    (h1 : "data_inversa" ∈ inp.cols) (h2 : "condicao_metereologica" ∈ inp.cols)
    (h3 : "hora_media" ∈ inp.cols) :
    ∃ xp : Frame, ∃ encs2 : EncState,
      preverCore E st inp = .ok (xp, encs2) ∧
      xp.cols = featuresList ∧ xp.nrows = inp.nrows ∧
      ("acidentes" ∉ inp.cols →
        ∀ c ∈ lagNames, xp.val c = List.replicate inp.nrows (Val.num 0)) ∧
      (∀ c0 ∈ (["uf", "municipio", "tipo_acidente"] : List String), c0 ∉ inp.cols →
        xp.val (c0 ++ "_enc") = List.replicate inp.nrows (Val.num 0)) := by
  have hget1 := Frame.getE_ok (f := inp) h1
  set df1 := inp.setCol "data" ((inp.val "data_inversa").map E.parseDate) with hdf1
  have h2b : "condicao_metereologica" ∈ df1.cols := Frame.mem_setCol.2 (Or.inr h2)
  have hget2 := Frame.getE_ok h2b
  set df2 := df1.setCol "clima"
    ((df1.val "condicao_metereologica").map
      (fun v => Val.str (simplificarClima (asStr v)))) with hdf2
  have hdmem : "data" ∈ df2.cols :=
    Frame.mem_setCol.2 (Or.inr (Frame.mem_setCol.2 (Or.inl rfl)))
  have hhmem : "hora_media" ∈ df2.cols :=
    Frame.mem_setCol.2 (Or.inr (Frame.mem_setCol.2 (Or.inr h3)))
  have hcf := criarFeatures_ok E st.encoders df2 hdmem hhmem
  have hnr2 : df2.nrows = inp.nrows := by
    rw [hdf2, Frame.nrows_setCol, hdf1, Frame.nrows_setCol]
  have hselfok : featuresList.all (fun c => featuresList.contains c) = true := by decide
  refine ⟨⟨(encFrame st.encoders
      ((lagFrame E (calFrame E df2 (df2.val "data"))).fillna0)).1.nrows, featuresList,
      (encFrame st.encoders
        ((lagFrame E (calFrame E df2 (df2.val "data"))).fillna0)).1.val⟩,
    (encFrame st.encoders ((lagFrame E (calFrame E df2 (df2.val "data"))).fillna0)).2,
    ?_, rfl, ?_, ?_, ?_⟩
  · unfold preverCore
    rw [if_neg (by simp [ht])]
    simp only [hget1, ← hdf1, hget2, ← hdf2, hcf, hfn]
    have hs2 := @Frame.select_ok
      ⟨(encFrame st.encoders
          ((lagFrame E (calFrame E df2 (df2.val "data"))).fillna0)).1.nrows, featuresList,
        (encFrame st.encoders
          ((lagFrame E (calFrame E df2 (df2.val "data"))).fillna0)).1.val⟩
      featuresList hselfok
    simp only [hs2]
  · simp only [built_nrows, hnr2]
  · intro hac c hc
    have hac2 : "acidentes" ∉ df2.cols := by
      rw [hdf2, Frame.mem_setCol, hdf1, Frame.mem_setCol]
      simp [hac]
    rw [built_lag_zero hac2 hc, hnr2]
  · intro c0 hc0 habs
    have habs2 : c0 ∉ df2.cols := by
      rw [hdf2, Frame.mem_setCol, hdf1, Frame.mem_setCol]
      have : c0 ≠ "clima" ∧ c0 ≠ "data" := by fin_cases hc0 <;> exact ⟨by decide, by decide⟩
      simp [this.1, this.2, habs]
    fin_cases hc0
    · rw [show ("uf" : String) ++ "_enc" = "uf_enc" from rfl,
        built_uf_enc_zero habs2, hnr2]
    · rw [show ("municipio" : String) ++ "_enc" = "municipio_enc" from rfl,
        built_municipio_enc_zero habs2, hnr2]
    · rw [show ("tipo_acidente" : String) ++ "_enc" = "tipo_acidente_enc" from rfl,
        built_tipo_enc_zero habs2, hnr2]

/-! ## Claims C1 and C5 -/

/-- C1 counterexample: on a trained predictor, a one-row prediction input
carrying every documented column except hora_media does not get a zero
column synthesized for the feature name hora_media; prever fails with a
KeyError naming it. -/
theorem c1_cex :
    preverCore extZero stTrained inpNoHora = .error (.keyError ["hora_media"]) := by
  rfl

/-- C1 (amended): for every trained predictor whose frozen feature list
is the canonical one and every input frame supplying the three columns
prever itself consumes (data_inversa, condicao_metereologica, hora_media),
the matrix handed to the regressor has exactly the frozen feature names
as columns, in order, with one row per input row; every lag and rolling
feature name is synthesized as an all-zero column when the input has no
acidentes column, and every categorical code column whose source column
(uf, municipio, tipo_acidente) is absent is synthesized as all zeros.
The original claim fails only for hora_media, which is never synthesized:
its absence raises KeyError (c1_cex). -/
theorem c1_column_identity (E : ExtFns) (st : PredState) (inp : Frame)
    (ht : st.treinado = true) (hfn : st.featureNames = featuresList)
    (h1 : "data_inversa" ∈ inp.cols) (h2 : "condicao_metereologica" ∈ inp.cols)
    (h3 : "hora_media" ∈ inp.cols) :
    ∃ xp : Frame, ∃ encs2 : EncState,
      preverCore E st inp = .ok (xp, encs2) ∧
      xp.cols = featuresList ∧ xp.nrows = inp.nrows ∧
      ("acidentes" ∉ inp.cols →
        ∀ c ∈ lagNames, xp.val c = List.replicate inp.nrows (Val.num 0)) ∧
      (∀ c0 ∈ (["uf", "municipio", "tipo_acidente"] : List String), c0 ∉ inp.cols →
        xp.val (c0 ++ "_enc") = List.replicate inp.nrows (Val.num 0)) :=
  preverCore_spec E st inp ht hfn h1 h2 h3

/-- Witness for c1_column_identity on a complete one-row input. -/
theorem c1_witness :
    ∃ xp : Frame, ∃ encs2 : EncState,
      preverCore extZero stTrained inpFull = .ok (xp, encs2) ∧
      xp.cols = featuresList ∧ xp.nrows = inpFull.nrows ∧
      ("acidentes" ∉ inpFull.cols →
        ∀ c ∈ lagNames, xp.val c = List.replicate inpFull.nrows (Val.num 0)) ∧
      (∀ c0 ∈ (["uf", "municipio", "tipo_acidente"] : List String),
        c0 ∉ inpFull.cols →
          xp.val (c0 ++ "_enc") = List.replicate inpFull.nrows (Val.num 0)) :=
  c1_column_identity extZero stTrained inpFull rfl rfl (by decide) (by decide)
    (by decide)

/-- C5: whenever prever succeeds on a trained predictor (the input
supplies the columns prever consumes and the regressor returns one raw
float per row), the returned vector has one value per input row, each
value is a non-negative integer obtained by rounding the raw regressor
output to the nearest integer (halves to even, as NumPy rounds) and
clipping negatives to zero. -/
theorem c5_nonneg (E : ExtFns) (st : PredState) (inp : Frame)
    (ht : st.treinado = true) (hfn : st.featureNames = featuresList)
    (h1 : "data_inversa" ∈ inp.cols) (h2 : "condicao_metereologica" ∈ inp.cols)
    (h3 : "hora_media" ∈ inp.cols)
    (hlen : ∀ f : Frame, (E.predict f).length = f.nrows) :
    ∃ st2 : PredState, ∃ out : List ℤ,
      preverRun E st inp = (st2, .ok out) ∧
      out.length = inp.nrows ∧ (∀ v ∈ out, 0 ≤ v) ∧
      (∃ xp : Frame, ∃ encs2 : EncState,
        preverCore E st inp = .ok (xp, encs2) ∧
        out = (E.predict xp).map (fun q => max (npRound q) 0)) ∧
      ∀ q : ℚ, |q - (npRound q : ℚ)| ≤ 1 / 2 := by
  obtain ⟨xp, encs2, hcore, hcols, hnr, _, _⟩ :=
    preverCore_spec E st inp ht hfn h1 h2 h3
  refine ⟨{ st with encoders := encs2 },
    (E.predict xp).map (fun q => max (npRound q) 0), ?_, ?_, ?_,
    ⟨xp, encs2, hcore, rfl⟩, npRound_nearest⟩
  · unfold preverRun
    rw [hcore]
  · rw [List.length_map, hlen xp, hnr]
  · intro v hv
    obtain ⟨q, _, rfl⟩ := List.mem_map.1 hv
    exact le_max_right _ _

/-- Witness for c5_nonneg with a regressor returning one zero per row. -/
theorem c5_witness :
    ∃ st2 : PredState, ∃ out : List ℤ,
      preverRun extZero stTrained inpFull = (st2, .ok out) ∧
      out.length = inpFull.nrows ∧ (∀ v ∈ out, 0 ≤ v) ∧
      (∃ xp : Frame, ∃ encs2 : EncState,
        preverCore extZero stTrained inpFull = .ok (xp, encs2) ∧
        out = (extZero.predict xp).map (fun q => max (npRound q) 0)) ∧
      ∀ q : ℚ, |q - (npRound q : ℚ)| ≤ 1 / 2 :=
  c5_nonneg extZero stTrained inpFull rfl rfl (by decide) (by decide) (by decide)
    (fun f => by simp [extZero])

/-! ## Claim C3 -/

theorem mem_leClasses {l : List String} {v : String} : v ∈ leClasses l ↔ v ∈ l := by
  unfold leClasses
  rw [(List.perm_insertionSort strLeP l.dedup).mem_iff, List.mem_dedup]

theorem encFrame_fit_all {f : Frame}
    (hu : "uf" ∈ f.cols) (hm : "municipio" ∈ f.cols)
    (ht : "tipo_acidente" ∈ f.cols) (hc : "clima" ∈ f.cols) :
    (encFrame [] f).2 =
      [("clima", leClasses ((f.val "clima").map asStr)),
       ("tipo_acidente", leClasses ((f.val "tipo_acidente").map asStr)),
       ("municipio", leClasses ((f.val "municipio").map asStr)),
       ("uf", leClasses ((f.val "uf").map asStr))] := by
  have e1 : (encStep (f, ([] : EncState)) "uf").2 =
      [("uf", leClasses ((f.val "uf").map asStr))] :=
    encStep_fit hu rfl
  have m2 : "municipio" ∈ (encStep (f, ([] : EncState)) "uf").1.cols :=
    mem_encStep.2 (Or.inr hm)
  have l2 : List.lookup "municipio" (encStep (f, ([] : EncState)) "uf").2 = none := by
    rw [e1]; rfl
  have v2 : (encStep (f, ([] : EncState)) "uf").1.val "municipio" = f.val "municipio" :=
    @val_encStep_ne "uf" "municipio" (by decide) _
  have e2 : (encStep (encStep (f, ([] : EncState)) "uf") "municipio").2 =
      ("municipio", leClasses ((f.val "municipio").map asStr)) ::
        (encStep (f, ([] : EncState)) "uf").2 := by
    rw [encStep_fit m2 l2, v2]
  have m3 : "tipo_acidente" ∈
      (encStep (encStep (f, ([] : EncState)) "uf") "municipio").1.cols :=
    mem_encStep.2 (Or.inr (mem_encStep.2 (Or.inr ht)))
  have l3 : List.lookup "tipo_acidente"
      (encStep (encStep (f, ([] : EncState)) "uf") "municipio").2 = none := by
    rw [e2, e1]; rfl
  have v3 : (encStep (encStep (f, ([] : EncState)) "uf") "municipio").1.val
      "tipo_acidente" = f.val "tipo_acidente" := by
    rw [@val_encStep_ne "municipio" "tipo_acidente" (by decide) _,
      @val_encStep_ne "uf" "tipo_acidente" (by decide) _]
  have e3 : (encStep (encStep (encStep (f, ([] : EncState)) "uf") "municipio")
      "tipo_acidente").2 =
      ("tipo_acidente", leClasses ((f.val "tipo_acidente").map asStr)) ::
        (encStep (encStep (f, ([] : EncState)) "uf") "municipio").2 := by
    rw [encStep_fit m3 l3, v3]
  have m4 : "clima" ∈ (encStep (encStep (encStep (f, ([] : EncState)) "uf")
      "municipio") "tipo_acidente").1.cols :=
    mem_encStep.2 (Or.inr (mem_encStep.2 (Or.inr (mem_encStep.2 (Or.inr hc)))))
  have l4 : List.lookup "clima" (encStep (encStep (encStep (f, ([] : EncState)) "uf")
      "municipio") "tipo_acidente").2 = none := by
    rw [e3, e2, e1]; rfl
  have v4 : (encStep (encStep (encStep (f, ([] : EncState)) "uf") "municipio")
      "tipo_acidente").1.val "clima" = f.val "clima" := by
    rw [@val_encStep_ne "tipo_acidente" "clima" (by decide) _,
      @val_encStep_ne "municipio" "clima" (by decide) _,
      @val_encStep_ne "uf" "clima" (by decide) _]
  show (encStep (encStep (encStep (encStep (f, ([] : EncState)) "uf") "municipio")
    "tipo_acidente") "clima").2 = _
  rw [encStep_fit m4 l4, v4, e3, e2, e1]

theorem built_cat_val (E : ExtFns) (f0 : Frame) {c : String}
    (hcal : c ∉ calNames) (hlag : c ∉ lagNames) :
    ((lagFrame E (calFrame E f0 (f0.val "data"))).fillna0).val c
      = (f0.val c).map fillVal := by
  rw [fillna0_val, val_lagFrame_not hlag, val_calFrame_not hcal]

theorem treinar_of_ok {E : ExtFns} {recs : List RawRec} {X : Frame}
    {encs : EncState} {y : Option Col}
    (h : criarFeatures E [] (aggFrame (processarAgg recs)) = .ok (X, encs, y)) :
    treinar E recs =
      .ok { encoders := encs, featureNames := X.cols, treinado := true } := by
  unfold treinar
  rw [h]

theorem treinar_spec (E : ExtFns) (recs : List RawRec) :
    treinar E recs =
      .ok { encoders :=
              [("clima", leClasses ((processarAgg recs).map (fun r => r.clima))),
               ("tipo_acidente",
                 leClasses ((processarAgg recs).map (fun r => r.tipo_acidente))),
               ("municipio",
                 leClasses ((processarAgg recs).map (fun r => r.municipio))),
               ("uf", leClasses ((processarAgg recs).map (fun r => r.uf)))],
            featureNames := featuresList, treinado := true } := by
  have hd : "data" ∈ (aggFrame (processarAgg recs)).cols := by simp [aggFrame]
  have hh : "hora_media" ∈ (aggFrame (processarAgg recs)).cols := by simp [aggFrame]
  have hcf := criarFeatures_ok E [] (aggFrame (processarAgg recs)) hd hh
  have hu : "uf" ∈ ((lagFrame E (calFrame E (aggFrame (processarAgg recs))
      ((aggFrame (processarAgg recs)).val "data"))).fillna0).cols := by
    rw [fillna0_cols, mem_lagFrame, mem_calFrame]
    simp [aggFrame, lagNames, calNames]
  have hm : "municipio" ∈ ((lagFrame E (calFrame E (aggFrame (processarAgg recs))
      ((aggFrame (processarAgg recs)).val "data"))).fillna0).cols := by
    rw [fillna0_cols, mem_lagFrame, mem_calFrame]
    simp [aggFrame, lagNames, calNames]
  have ht2 : "tipo_acidente" ∈ ((lagFrame E (calFrame E (aggFrame (processarAgg recs))
      ((aggFrame (processarAgg recs)).val "data"))).fillna0).cols := by
    rw [fillna0_cols, mem_lagFrame, mem_calFrame]
    simp [aggFrame, lagNames, calNames]
  have hc : "clima" ∈ ((lagFrame E (calFrame E (aggFrame (processarAgg recs))
      ((aggFrame (processarAgg recs)).val "data"))).fillna0).cols := by
    rw [fillna0_cols, mem_lagFrame, mem_calFrame]
    simp [aggFrame, lagNames, calNames]
  have hfit := encFrame_fit_all hu hm ht2 hc
  have vu : (((lagFrame E (calFrame E (aggFrame (processarAgg recs))
      ((aggFrame (processarAgg recs)).val "data"))).fillna0).val "uf").map asStr =
      (processarAgg recs).map (fun r => r.uf) := by
    rw [built_cat_val E _ (by decide) (by decide),
      show (aggFrame (processarAgg recs)).val "uf" =
        (processarAgg recs).map (fun r => Val.str r.uf) from rfl]
    simp [List.map_map, Function.comp, fillVal, asStr]
  have vm : (((lagFrame E (calFrame E (aggFrame (processarAgg recs))
      ((aggFrame (processarAgg recs)).val "data"))).fillna0).val "municipio").map asStr =
      (processarAgg recs).map (fun r => r.municipio) := by
    rw [built_cat_val E _ (by decide) (by decide),
      show (aggFrame (processarAgg recs)).val "municipio" =
        (processarAgg recs).map (fun r => Val.str r.municipio) from rfl]
    simp [List.map_map, Function.comp, fillVal, asStr]
  have vt : (((lagFrame E (calFrame E (aggFrame (processarAgg recs))
      ((aggFrame (processarAgg recs)).val "data"))).fillna0).val "tipo_acidente").map asStr =
      (processarAgg recs).map (fun r => r.tipo_acidente) := by
    rw [built_cat_val E _ (by decide) (by decide),
      show (aggFrame (processarAgg recs)).val "tipo_acidente" =
        (processarAgg recs).map (fun r => Val.str r.tipo_acidente) from rfl]
    simp [List.map_map, Function.comp, fillVal, asStr]
  have vc : (((lagFrame E (calFrame E (aggFrame (processarAgg recs))
      ((aggFrame (processarAgg recs)).val "data"))).fillna0).val "clima").map asStr =
      (processarAgg recs).map (fun r => r.clima) := by
    rw [built_cat_val E _ (by decide) (by decide),
      show (aggFrame (processarAgg recs)).val "clima" =
        (processarAgg recs).map (fun r => Val.str r.clima) from rfl]
    simp [List.map_map, Function.comp, fillVal, asStr]
  rw [treinar_of_ok hcf, hfit, vu, vm, vt, vc]

/-- C3 (amended): during training every categorical encoder is fitted on
the full chronologically ordered daily series — before the 70/30 split of
line 127 — so each vocabulary is the sorted distinct values of the whole
column, and every value occurring in the held-out 30% slice (rows from
split_index on) is in the vocabulary, including values that occur only
there.  The original claim (fit on the training split only) is refuted by
c3_cex. -/
theorem c3_full_fit (E : ExtFns) (recs : List RawRec) :
    ∃ st : PredState, treinar E recs = .ok st ∧ st.treinado = true ∧
      st.featureNames = featuresList ∧
      List.lookup "uf" st.encoders =
        some (leClasses ((processarAgg recs).map (fun r => r.uf))) ∧
      List.lookup "municipio" st.encoders =
        some (leClasses ((processarAgg recs).map (fun r => r.municipio))) ∧
      List.lookup "tipo_acidente" st.encoders =
        some (leClasses ((processarAgg recs).map (fun r => r.tipo_acidente))) ∧
      List.lookup "clima" st.encoders =
        some (leClasses ((processarAgg recs).map (fun r => r.clima))) ∧
      (∀ v ∈ ((processarAgg recs).drop
          (splitIndex (processarAgg recs).length)).map (fun r => r.municipio),
        ∃ cls, List.lookup "municipio" st.encoders = some cls ∧ v ∈ cls) := by
  refine ⟨_, treinar_spec E recs, rfl, rfl, rfl, rfl, rfl, rfl, ?_⟩
  intro v hv
  refine ⟨_, rfl, ?_⟩
  rw [mem_leClasses]
  obtain ⟨r, hr, rfl⟩ := List.mem_map.1 hv
  exact List.mem_map_of_mem _ (List.drop_subset _ _ hr)

/-- Witness for c3_full_fit: on recsC3 the fitted municipality vocabulary
contains "ZZZ", which occurs only in the held-out slice. -/
theorem c3_witness :
    ∃ st : PredState, treinar extZero recsC3 = .ok st ∧ st.treinado = true ∧
      ∃ cls, List.lookup "municipio" st.encoders = some cls ∧ "ZZZ" ∈ cls := by
  obtain ⟨st, h1, h2, _, _, _, _, _, h8⟩ := c3_full_fit extZero recsC3
  obtain ⟨cls, hcls, hv⟩ := h8 "ZZZ" (by decide)
  exact ⟨st, h1, h2, cls, hcls, hv⟩
